import Mathlib

/-!
Shallow embedding of the Chloroplast drone client (Test_Commands.py,
Hand_Landmark_Processing.py, Test_Cameras.py): the binary flight-command
encoder, the heartbeat scheduler state, the takeoff / hover burst actions,
and the video-stream open / reconnect / camera-switch logic, together with
theorems checking the natural-language specification against this code.
-/

namespace Chloroplast

/-- Numeric value of `DroneType.STANDARD` in `Test_Commands.py`. -/
def DroneTypeStandard : Nat := 1

/-- Numeric value of `DroneType.ADVANCED` in `Test_Commands.py`. -/
def DroneTypeAdvanced : Nat := 10

/-- The mutable control state of `DroneTester` (`Test_Commands.py` lines
18-32): four control axes (each a Python int, modelled as `Nat`) and the
eight boolean mode flags, in the order `__init__` sets them. -/
structure DroneState where
  control_accelerator : Nat
  control_byte1 : Nat
  control_byte2 : Nat
  control_turn : Nat
  is_fast_fly : Bool
  is_fast_drop : Bool
  is_emergency_stop : Bool
  is_gyro_correction : Bool
  is_no_head_mode : Bool
  is_fast_return : Bool
  is_unlock : Bool
  is_circle_turn_end : Bool
deriving DecidableEq, Repr

/-- The initial `DroneTester` state: all axes 128, all flags false. -/
def initState : DroneState :=
  ⟨128, 128, 128, 128, false, false, false, false, false, false, false, false⟩

/-- `byte5` of `build_flight_command` (`Test_Commands.py` lines 80-94): the
Advanced-profile mode-flag byte, built by adding powers of two. -/
def byte5OfState (s : DroneState) : Nat :=
  (if s.is_fast_fly then 1 else 0) +
  (if s.is_fast_drop then 2 else 0) +
  (if s.is_emergency_stop then 4 else 0) +
  (if s.is_circle_turn_end then 8 else 0) +
  (if s.is_no_head_mode then 16 else 0) +
  (if s.is_fast_return || s.is_unlock then 32 else 0) +
  (if s.is_gyro_correction then 128 else 0)

/-- `byte5_std` of `build_flight_command` (`Test_Commands.py` lines 124-132):
the Standard-profile first flag byte. -/
def byte5Std (s : DroneState) : Nat :=
  (if s.is_fast_fly || s.is_fast_drop then 1 else 0) +
  (if s.is_emergency_stop then 2 else 0) +
  (if s.is_gyro_correction then 4 else 0) +
  (if s.is_circle_turn_end then 8 else 0)

/-- `byte6_std` of `build_flight_command` (`Test_Commands.py` lines 134-136):
the Standard-profile second flag byte. -/
def byte6Std (s : DroneState) : Nat :=
  if s.is_no_head_mode then 1 else 0

/-- The in-place clamp of `build_flight_command` (`Test_Commands.py` lines
96-102): `control_turn`, `control_byte1`, `control_byte2` are clamped with
`max(1, min(255, _))`; `control_accelerator` is remapped to 0 when it equals
1 and otherwise untouched. -/
def clampAxes (s : DroneState) : DroneState :=
  let s := { s with control_turn := max 1 (min 255 s.control_turn) }
  let s := { s with control_byte1 := max 1 (min 255 s.control_byte1) }
  let s := { s with control_byte2 := max 1 (min 255 s.control_byte2) }
  if s.control_accelerator = 1 then { s with control_accelerator := 0 } else s

/-- The Advanced checksum expression (`Test_Commands.py` lines 105-106):
`control_byte1 ^ control_byte2 ^ control_accelerator ^ control_turn ^ (byte5 & 255)`. -/
def advChecksum (b1 b2 acc turn flags : Nat) : Nat :=
  b1 ^^^ b2 ^^^ acc ^^^ turn ^^^ flags

/-- The Standard checksum expression (`Test_Commands.py` lines 138-141):
`byte5_std ^ (control_byte2 ^ control_byte1 ^ control_accelerator ^ control_turn) ^ (byte6_std & 255)`. -/
def stdChecksum (f5 b2 b1 acc turn f6 : Nat) : Nat :=
  f5 ^^^ (b2 ^^^ b1 ^^^ acc ^^^ turn) ^^^ f6

/-- `DroneTester.build_flight_command` (`Test_Commands.py` lines 77-158).
Python mutates `self` while building, so the embedding returns the mutated
state together with the wire bytes (`full_command`, a list of byte values;
Python's `x & 0xFF` is written `x % 256`). -/
def build_flight_command (s : DroneState) (device_type : Nat) :
    DroneState × List Nat :=
  let byte5 := byte5OfState s
  let s := clampAxes s
  let checksum := advChecksum s.control_byte1 s.control_byte2
    s.control_accelerator s.control_turn (byte5 % 256)
  if device_type = DroneTypeAdvanced then
    (s, [3, 102, s.control_byte1 % 256, s.control_byte2 % 256,
         s.control_accelerator % 256, s.control_turn % 256,
         byte5 % 256, checksum % 256, 153])
  else
    let byte5_std := byte5Std s
    let byte6_std := byte6Std s
    let checksum_std := stdChecksum byte5_std s.control_byte2 s.control_byte1
      s.control_accelerator s.control_turn (byte6_std % 256)
    (s, [3, 102, 20, s.control_byte1 % 256, s.control_byte2 % 256,
         s.control_accelerator % 256, s.control_turn % 256,
         byte5_std % 256, byte6_std % 256,
         0, 0, 0, 0, 0, 0, 0, 0, 0, 0,
         checksum_std % 256, 153])

/-- `DroneTester.send_flight_command` (`Test_Commands.py` lines 160-163):
builds with the default `device_type=DroneType.ADVANCED.value` and sends the
packet; the embedding returns the mutated state and the sent packet. -/
def send_flight_command (s : DroneState) : DroneState × List Nat :=
  build_flight_command s DroneTypeAdvanced

/-- The axis ranges under which the clamp of `build_flight_command` is the
identity: roll, pitch, yaw in [1,255] and throttle at most 255. -/
def axesOK (s : DroneState) : Prop :=
  1 ≤ s.control_byte1 ∧ s.control_byte1 ≤ 255 ∧
  1 ≤ s.control_byte2 ∧ s.control_byte2 ≤ 255 ∧
  1 ≤ s.control_turn ∧ s.control_turn ≤ 255 ∧
  s.control_accelerator ≤ 255

instance (s : DroneState) : Decidable (axesOK s) := by
  unfold axesOK
  exact inferInstance

/-- Normal form of the Advanced branch of `build_flight_command`. -/
lemma build_adv_eq (s : DroneState) :
    (build_flight_command s DroneTypeAdvanced).2 =
      [3, 102, max 1 (min 255 s.control_byte1) % 256,
       max 1 (min 255 s.control_byte2) % 256,
       (if s.control_accelerator = 1 then 0 else s.control_accelerator) % 256,
       max 1 (min 255 s.control_turn) % 256,
       byte5OfState s % 256,
       advChecksum (max 1 (min 255 s.control_byte1))
         (max 1 (min 255 s.control_byte2))
         (if s.control_accelerator = 1 then 0 else s.control_accelerator)
         (max 1 (min 255 s.control_turn)) (byte5OfState s % 256) % 256,
       153] := by
  rcases s with ⟨acc, b1, b2, turn, f1, f2, f3, f4, f5, f6, f7, f8⟩
  by_cases h : acc = 1 <;>
    simp [build_flight_command, clampAxes, h]

/-- Normal form of the Standard branch of `build_flight_command`. -/
lemma build_std_eq (s : DroneState) :
    (build_flight_command s DroneTypeStandard).2 =
      [3, 102, 20, max 1 (min 255 s.control_byte1) % 256,
       max 1 (min 255 s.control_byte2) % 256,
       (if s.control_accelerator = 1 then 0 else s.control_accelerator) % 256,
       max 1 (min 255 s.control_turn) % 256,
       byte5Std s % 256, byte6Std s % 256,
       0, 0, 0, 0, 0, 0, 0, 0, 0, 0,
       stdChecksum (byte5Std s)
         (max 1 (min 255 s.control_byte2)) (max 1 (min 255 s.control_byte1))
         (if s.control_accelerator = 1 then 0 else s.control_accelerator)
         (max 1 (min 255 s.control_turn)) (byte6Std s % 256) % 256,
       153] := by
  rcases s with ⟨acc, b1, b2, turn, f1, f2, f3, f4, f5, f6, f7, f8⟩
  by_cases h : acc = 1 <;>
    simp [build_flight_command, clampAxes, byte5Std, byte6Std,
      DroneTypeStandard, DroneTypeAdvanced, h]

/-- Pure-Bool form of the Advanced flag byte facts, settled by a closed
case analysis over all 256 flag combinations. -/
lemma byte5_bits_aux : ∀ f1 f2 f3 f4 f5 f6 f7 f8 : Bool,
    (((if f1 then 1 else 0) + (if f2 then 2 else 0) + (if f3 then 4 else 0) +
      (if f4 then 8 else 0) + (if f5 then 16 else 0) +
      (if f6 || f7 then 32 else 0) + (if f8 then 128 else 0) : Nat) < 256) ∧
    (((if f1 then 1 else 0) + (if f2 then 2 else 0) + (if f3 then 4 else 0) +
      (if f4 then 8 else 0) + (if f5 then 16 else 0) +
      (if f6 || f7 then 32 else 0) + (if f8 then 128 else 0) : Nat)).testBit 0 = f1 ∧
    (((if f1 then 1 else 0) + (if f2 then 2 else 0) + (if f3 then 4 else 0) +
      (if f4 then 8 else 0) + (if f5 then 16 else 0) +
      (if f6 || f7 then 32 else 0) + (if f8 then 128 else 0) : Nat)).testBit 1 = f2 ∧
    (((if f1 then 1 else 0) + (if f2 then 2 else 0) + (if f3 then 4 else 0) +
      (if f4 then 8 else 0) + (if f5 then 16 else 0) +
      (if f6 || f7 then 32 else 0) + (if f8 then 128 else 0) : Nat)).testBit 2 = f3 ∧
    (((if f1 then 1 else 0) + (if f2 then 2 else 0) + (if f3 then 4 else 0) +
      (if f4 then 8 else 0) + (if f5 then 16 else 0) +
      (if f6 || f7 then 32 else 0) + (if f8 then 128 else 0) : Nat)).testBit 3 = f4 ∧
    (((if f1 then 1 else 0) + (if f2 then 2 else 0) + (if f3 then 4 else 0) +
      (if f4 then 8 else 0) + (if f5 then 16 else 0) +
      (if f6 || f7 then 32 else 0) + (if f8 then 128 else 0) : Nat)).testBit 4 = f5 ∧
    (((if f1 then 1 else 0) + (if f2 then 2 else 0) + (if f3 then 4 else 0) +
      (if f4 then 8 else 0) + (if f5 then 16 else 0) +
      (if f6 || f7 then 32 else 0) + (if f8 then 128 else 0) : Nat)).testBit 5 = (f6 || f7) ∧
    (((if f1 then 1 else 0) + (if f2 then 2 else 0) + (if f3 then 4 else 0) +
      (if f4 then 8 else 0) + (if f5 then 16 else 0) +
      (if f6 || f7 then 32 else 0) + (if f8 then 128 else 0) : Nat)).testBit 6 = false ∧
    (((if f1 then 1 else 0) + (if f2 then 2 else 0) + (if f3 then 4 else 0) +
      (if f4 then 8 else 0) + (if f5 then 16 else 0) +
      (if f6 || f7 then 32 else 0) + (if f8 then 128 else 0) : Nat)).testBit 7 = f8 := by
  decide

/-- The Advanced flag byte is below 256 (at most 191). -/
lemma byte5OfState_lt (s : DroneState) : byte5OfState s < 256 := by
  have h := (byte5_bits_aux s.is_fast_fly s.is_fast_drop s.is_emergency_stop
    s.is_circle_turn_end s.is_no_head_mode s.is_fast_return s.is_unlock
    s.is_gyro_correction).1
  simpa [byte5OfState] using h

/-- Bit layout of the Advanced flag byte: each flag occupies its own bit. -/
lemma byte5OfState_testBit (s : DroneState) :
    (byte5OfState s).testBit 0 = s.is_fast_fly ∧
    (byte5OfState s).testBit 1 = s.is_fast_drop ∧
    (byte5OfState s).testBit 2 = s.is_emergency_stop ∧
    (byte5OfState s).testBit 3 = s.is_circle_turn_end ∧
    (byte5OfState s).testBit 4 = s.is_no_head_mode ∧
    (byte5OfState s).testBit 5 = (s.is_fast_return || s.is_unlock) ∧
    (byte5OfState s).testBit 6 = false ∧
    (byte5OfState s).testBit 7 = s.is_gyro_correction := by
  have h := byte5_bits_aux s.is_fast_fly s.is_fast_drop s.is_emergency_stop
    s.is_circle_turn_end s.is_no_head_mode s.is_fast_return s.is_unlock
    s.is_gyro_correction
  exact ⟨h.2.1, h.2.2.1, h.2.2.2.1, h.2.2.2.2.1, h.2.2.2.2.2.1,
    h.2.2.2.2.2.2.1, h.2.2.2.2.2.2.2.1, h.2.2.2.2.2.2.2.2⟩

/-- Pure-Bool form of the Standard flag byte facts. -/
lemma byte5Std_bits_aux : ∀ f1 f2 f3 f4 : Bool,
    (((if f1 then 1 else 0) + (if f2 then 2 else 0) + (if f3 then 4 else 0) +
      (if f4 then 8 else 0) : Nat) < 256) ∧
    (((if f1 then 1 else 0) + (if f2 then 2 else 0) + (if f3 then 4 else 0) +
      (if f4 then 8 else 0) : Nat)).testBit 0 = f1 ∧
    (((if f1 then 1 else 0) + (if f2 then 2 else 0) + (if f3 then 4 else 0) +
      (if f4 then 8 else 0) : Nat)).testBit 1 = f2 ∧
    (((if f1 then 1 else 0) + (if f2 then 2 else 0) + (if f3 then 4 else 0) +
      (if f4 then 8 else 0) : Nat)).testBit 2 = f3 ∧
    (((if f1 then 1 else 0) + (if f2 then 2 else 0) + (if f3 then 4 else 0) +
      (if f4 then 8 else 0) : Nat)).testBit 3 = f4 := by
  decide

/-- Bit layout of the Standard flag bytes. -/
lemma byte5Std_testBit (s : DroneState) :
    (byte5Std s).testBit 0 = (s.is_fast_fly || s.is_fast_drop) ∧
    (byte5Std s).testBit 1 = s.is_emergency_stop ∧
    (byte5Std s).testBit 2 = s.is_gyro_correction ∧
    (byte5Std s).testBit 3 = s.is_circle_turn_end := by
  have h := byte5Std_bits_aux (s.is_fast_fly || s.is_fast_drop)
    s.is_emergency_stop s.is_gyro_correction s.is_circle_turn_end
  exact ⟨h.2.1, h.2.2.1, h.2.2.2.1, h.2.2.2.2⟩

/-- The Standard flag bytes are below 256. -/
lemma byte5Std_lt (s : DroneState) : byte5Std s < 256 ∧ byte6Std s < 256 := by
  constructor
  · exact (byte5Std_bits_aux (s.is_fast_fly || s.is_fast_drop)
      s.is_emergency_stop s.is_gyro_correction s.is_circle_turn_end).1
  · unfold byte6Std
    split <;> omega

/-- Bitwise xor distributes over truncation to `n` low bits. -/
lemma xor_mod_two_pow (x y n : Nat) :
    (x ^^^ y) % 2 ^ n = x % 2 ^ n ^^^ y % 2 ^ n := by
  apply Nat.eq_of_testBit_eq
  intro i
  by_cases h : i < n <;>
    simp [Nat.testBit_mod_two_pow, Nat.testBit_xor, h]

/-- Xor distributes over Python's byte mask `& 0xFF`, written `% 256`. -/
lemma xor_mod256 (x y : Nat) : (x ^^^ y) % 256 = x % 256 ^^^ y % 256 := by
  have h := xor_mod_two_pow x y 8
  norm_num at h
  exact h

/-- Xor of two bytes is a byte. -/
lemma xor_lt_256 (x y : Nat) (hx : x < 256) (hy : y < 256) : x ^^^ y < 256 := by
  have h : (x ^^^ y) % 256 = x ^^^ y := by
    rw [xor_mod256, Nat.mod_eq_of_lt hx, Nat.mod_eq_of_lt hy]
  omega

/-- **C1** (corrected: the claim fails at throttle = 1, which the encoder
remaps to 0 before building the packet). For roll, pitch, yaw in [1,255],
any throttle byte other than 1, and any combination of mode flags, the
Advanced flight command is exactly the 9 bytes
{3, 102, roll, pitch, throttle, yaw, flags, checksum, 153} where the flags
byte packs bit0=fastFly, bit1=fastDrop, bit2=emergencyStop,
bit3=circleTurnEnd, bit4=noHeadMode, bit5=(fastReturn OR unlock), bit6=0,
bit7=gyroCorrection, and the checksum is the xor of the four axis bytes and
the flags byte. -/
theorem advanced_packet_layout (s : DroneState) (hOK : axesOK s)
    (hacc : s.control_accelerator ≠ 1) :
    (build_flight_command s DroneTypeAdvanced).2 =
      [3, 102, s.control_byte1, s.control_byte2, s.control_accelerator,
       s.control_turn, byte5OfState s,
       s.control_byte1 ^^^ s.control_byte2 ^^^ s.control_accelerator ^^^
         s.control_turn ^^^ byte5OfState s, 153] ∧
    (byte5OfState s).testBit 0 = s.is_fast_fly ∧
    (byte5OfState s).testBit 1 = s.is_fast_drop ∧
    (byte5OfState s).testBit 2 = s.is_emergency_stop ∧
    (byte5OfState s).testBit 3 = s.is_circle_turn_end ∧
    (byte5OfState s).testBit 4 = s.is_no_head_mode ∧
    (byte5OfState s).testBit 5 = (s.is_fast_return || s.is_unlock) ∧
    (byte5OfState s).testBit 6 = false ∧
    (byte5OfState s).testBit 7 = s.is_gyro_correction := by
  obtain ⟨hb1, hb1', hb2, hb2', ht, ht', ha⟩ := hOK
  refine ⟨?_, byte5OfState_testBit s⟩
  rw [build_adv_eq]
  have e1 : max 1 (min 255 s.control_byte1) = s.control_byte1 := by omega
  have e2 : max 1 (min 255 s.control_byte2) = s.control_byte2 := by omega
  have e3 : max 1 (min 255 s.control_turn) = s.control_turn := by omega
  have ea : (if s.control_accelerator = 1 then 0 else s.control_accelerator) =
      s.control_accelerator := if_neg hacc
  have h5 := byte5OfState_lt s
  rw [e1, e2, e3, ea]
  have m1 : s.control_byte1 % 256 = s.control_byte1 := Nat.mod_eq_of_lt (by omega)
  have m2 : s.control_byte2 % 256 = s.control_byte2 := Nat.mod_eq_of_lt (by omega)
  have m3 : s.control_accelerator % 256 = s.control_accelerator :=
    Nat.mod_eq_of_lt (by omega)
  have m4 : s.control_turn % 256 = s.control_turn := Nat.mod_eq_of_lt (by omega)
  have m5 : byte5OfState s % 256 = byte5OfState s := Nat.mod_eq_of_lt h5
  rw [m1, m2, m3, m4, m5]
  have c1 : s.control_byte1 ^^^ s.control_byte2 < 256 :=
    xor_lt_256 _ _ (by omega) (by omega)
  have c2 : s.control_byte1 ^^^ s.control_byte2 ^^^ s.control_accelerator < 256 :=
    xor_lt_256 _ _ c1 (by omega)
  have c3 : s.control_byte1 ^^^ s.control_byte2 ^^^ s.control_accelerator ^^^
      s.control_turn < 256 := xor_lt_256 _ _ c2 (by omega)
  have c4 : s.control_byte1 ^^^ s.control_byte2 ^^^ s.control_accelerator ^^^
      s.control_turn ^^^ byte5OfState s < 256 := xor_lt_256 _ _ c3 h5
  simp only [advChecksum]
  rw [Nat.mod_eq_of_lt c4]

/-- **C1 witness**: a concrete in-range state, with its 9-byte packet. -/
theorem advanced_packet_layout_witness :
    (build_flight_command
      ⟨200, 10, 20, 30, true, false, true, true, false, true, false, false⟩
      DroneTypeAdvanced).2 = [3, 102, 10, 20, 200, 30, 165, 109, 153] := by
  have h := advanced_packet_layout
    ⟨200, 10, 20, 30, true, false, true, true, false, true, false, false⟩
    (by decide) (by decide)
  exact h.1.trans (by decide)

/-- **C1 counterexample**: with roll = pitch = yaw = 128 and throttle = 1,
the claim predicts the packet {3, 102, 128, 128, 1, 128, 0, 129, 153}, but
`build_flight_command` remaps the throttle to 0 first and emits
{3, 102, 128, 128, 0, 128, 0, 128, 153}. -/
theorem advanced_packet_layout_throttle_one :
    (build_flight_command
      ⟨1, 128, 128, 128, false, false, false, false, false, false, false, false⟩
      DroneTypeAdvanced).2 ≠ [3, 102, 128, 128, 1, 128, 0, 129, 153] ∧
    (build_flight_command
      ⟨1, 128, 128, 128, false, false, false, false, false, false, false, false⟩
      DroneTypeAdvanced).2 = [3, 102, 128, 128, 0, 128, 0, 128, 153] := by
  decide

/-- **C2.** In every Advanced packet, byte 7 is the xor of bytes 2-6
(roll, pitch, throttle, yaw, flags); in every Standard packet, byte 19 is
flags5 xor (pitch xor roll xor throttle xor yaw) xor flags6; and each of
the two checksum chains changes whenever any single one of its operand
bytes is changed. -/
theorem checksum_xor_chain :
    (∀ s : DroneState,
      ((build_flight_command s DroneTypeAdvanced).2).getD 7 0 =
        ((build_flight_command s DroneTypeAdvanced).2).getD 2 0 ^^^
        ((build_flight_command s DroneTypeAdvanced).2).getD 3 0 ^^^
        ((build_flight_command s DroneTypeAdvanced).2).getD 4 0 ^^^
        ((build_flight_command s DroneTypeAdvanced).2).getD 5 0 ^^^
        ((build_flight_command s DroneTypeAdvanced).2).getD 6 0) ∧
    (∀ s : DroneState,
      ((build_flight_command s DroneTypeStandard).2).getD 19 0 =
        ((build_flight_command s DroneTypeStandard).2).getD 7 0 ^^^
        (((build_flight_command s DroneTypeStandard).2).getD 4 0 ^^^
         ((build_flight_command s DroneTypeStandard).2).getD 3 0 ^^^
         ((build_flight_command s DroneTypeStandard).2).getD 5 0 ^^^
         ((build_flight_command s DroneTypeStandard).2).getD 6 0) ^^^
        ((build_flight_command s DroneTypeStandard).2).getD 8 0) ∧
    (∀ v w b2 acc turn f, v ≠ w →
      advChecksum v b2 acc turn f ≠ advChecksum w b2 acc turn f) ∧
    (∀ v w b1 acc turn f, v ≠ w →
      advChecksum b1 v acc turn f ≠ advChecksum b1 w acc turn f) ∧
    (∀ v w b1 b2 turn f, v ≠ w →
      advChecksum b1 b2 v turn f ≠ advChecksum b1 b2 w turn f) ∧
    (∀ v w b1 b2 acc f, v ≠ w →
      advChecksum b1 b2 acc v f ≠ advChecksum b1 b2 acc w f) ∧
    (∀ v w b1 b2 acc turn, v ≠ w →
      advChecksum b1 b2 acc turn v ≠ advChecksum b1 b2 acc turn w) ∧
    (∀ v w b2 b1 acc turn f6, v ≠ w →
      stdChecksum v b2 b1 acc turn f6 ≠ stdChecksum w b2 b1 acc turn f6) ∧
    (∀ v w f5 b1 acc turn f6, v ≠ w →
      stdChecksum f5 v b1 acc turn f6 ≠ stdChecksum f5 w b1 acc turn f6) ∧
    (∀ v w f5 b2 acc turn f6, v ≠ w →
      stdChecksum f5 b2 v acc turn f6 ≠ stdChecksum f5 b2 w acc turn f6) ∧
    (∀ v w f5 b2 b1 turn f6, v ≠ w →
      stdChecksum f5 b2 b1 v turn f6 ≠ stdChecksum f5 b2 b1 w turn f6) ∧
    (∀ v w f5 b2 b1 acc f6, v ≠ w →
      stdChecksum f5 b2 b1 acc v f6 ≠ stdChecksum f5 b2 b1 acc w f6) ∧
    (∀ v w f5 b2 b1 acc turn, v ≠ w →
      stdChecksum f5 b2 b1 acc turn v ≠ stdChecksum f5 b2 b1 acc turn w) := by
  have hmm : ∀ x : Nat, x % 256 % 256 = x % 256 := fun x => by omega
  refine ⟨?_, ?_, ?_, ?_, ?_, ?_, ?_, ?_, ?_, ?_, ?_, ?_, ?_⟩
  · intro s
    rw [build_adv_eq]
    simp only [List.getD_cons_succ, List.getD_cons_zero, advChecksum]
    rw [xor_mod256, xor_mod256, xor_mod256, xor_mod256, hmm]
  · intro s
    rw [build_std_eq]
    simp only [List.getD_cons_succ, List.getD_cons_zero, stdChecksum]
    rw [xor_mod256, xor_mod256, xor_mod256, xor_mod256, xor_mod256, hmm]
  · intro v w a b c d h heq
    exact h (by simpa [advChecksum, Nat.xor_left_inj, Nat.xor_right_inj] using heq)
  · intro v w a b c d h heq
    exact h (by simpa [advChecksum, Nat.xor_left_inj, Nat.xor_right_inj] using heq)
  · intro v w a b c d h heq
    exact h (by simpa [advChecksum, Nat.xor_left_inj, Nat.xor_right_inj] using heq)
  · intro v w a b c d h heq
    exact h (by simpa [advChecksum, Nat.xor_left_inj, Nat.xor_right_inj] using heq)
  · intro v w a b c d h heq
    exact h (by simpa [advChecksum, Nat.xor_left_inj, Nat.xor_right_inj] using heq)
  · intro v w a b c d e h heq
    exact h (by simpa [stdChecksum, Nat.xor_left_inj, Nat.xor_right_inj] using heq)
  · intro v w a b c d e h heq
    exact h (by simpa [stdChecksum, Nat.xor_left_inj, Nat.xor_right_inj] using heq)
  · intro v w a b c d e h heq
    exact h (by simpa [stdChecksum, Nat.xor_left_inj, Nat.xor_right_inj] using heq)
  · intro v w a b c d e h heq
    exact h (by simpa [stdChecksum, Nat.xor_left_inj, Nat.xor_right_inj] using heq)
  · intro v w a b c d e h heq
    exact h (by simpa [stdChecksum, Nat.xor_left_inj, Nat.xor_right_inj] using heq)
  · intro v w a b c d e h heq
    exact h (by simpa [stdChecksum, Nat.xor_left_inj, Nat.xor_right_inj] using heq)

/-- **C3.** `build_flight_command` clamps `control_byte1` (roll),
`control_byte2` (pitch) and `control_turn` (yaw) into [1,255] before
encoding — an input of 0 encodes as wire value 1, and inputs of 256 or more
encode as 255 — while the throttle byte (`control_accelerator`) is not
range-clamped: an input of exactly 1 encodes as 0, and every throttle in
2..255 encodes unchanged. -/
theorem clamp_and_throttle_rules : ∀ s : DroneState,
    (s.control_byte1 = 0 →
      ((build_flight_command s DroneTypeAdvanced).2).getD 2 0 = 1) ∧
    (256 ≤ s.control_byte1 →
      ((build_flight_command s DroneTypeAdvanced).2).getD 2 0 = 255) ∧
    (s.control_byte2 = 0 →
      ((build_flight_command s DroneTypeAdvanced).2).getD 3 0 = 1) ∧
    (256 ≤ s.control_byte2 →
      ((build_flight_command s DroneTypeAdvanced).2).getD 3 0 = 255) ∧
    (s.control_turn = 0 →
      ((build_flight_command s DroneTypeAdvanced).2).getD 5 0 = 1) ∧
    (256 ≤ s.control_turn →
      ((build_flight_command s DroneTypeAdvanced).2).getD 5 0 = 255) ∧
    (s.control_accelerator = 1 →
      ((build_flight_command s DroneTypeAdvanced).2).getD 4 0 = 0) ∧
    (2 ≤ s.control_accelerator → s.control_accelerator ≤ 255 →
      ((build_flight_command s DroneTypeAdvanced).2).getD 4 0 =
        s.control_accelerator) := by
  intro s
  rw [build_adv_eq]
  simp only [List.getD_cons_succ, List.getD_cons_zero]
  refine ⟨fun h => by omega, fun h => by omega, fun h => by omega,
    fun h => by omega, fun h => by omega, fun h => by omega,
    fun h => ?_, fun h h2 => ?_⟩
  · rw [if_pos h]
  · rw [if_neg (by omega)]
    omega

/-- A byte-valued indicator determines its Bool. -/
lemma indicator_inj : ∀ a b : Bool,
    ((if a then 1 else 0 : Nat) = (if b then 1 else 0)) → a = b := by
  decide

/-- **C4** (corrected: `is_fast_return` and `is_unlock` share wire bit 5, so
the encoder is not injective on raw flag tuples). For states whose axes are
in the clamped domain, equal Advanced packets force equal roll, pitch, yaw,
equal encoded throttle and an equal flags byte — hence equal flags up to
the fastReturn/unlock alias — and equal Standard packets force equal axes
and equal flags5/flags6 bytes, hence equal flags up to the Standard
profile's fastFly/fastDrop alias (fastReturn and unlock are absent from the
Standard layout entirely). -/
theorem encoder_injective_on_wire_fields (s t : DroneState)
    (hs : axesOK s) (ht : axesOK t) :
    ((build_flight_command s DroneTypeAdvanced).2 =
        (build_flight_command t DroneTypeAdvanced).2 →
      s.control_byte1 = t.control_byte1 ∧
      s.control_byte2 = t.control_byte2 ∧
      s.control_turn = t.control_turn ∧
      (if s.control_accelerator = 1 then 0 else s.control_accelerator) =
        (if t.control_accelerator = 1 then 0 else t.control_accelerator) ∧
      byte5OfState s = byte5OfState t ∧
      s.is_fast_fly = t.is_fast_fly ∧
      s.is_fast_drop = t.is_fast_drop ∧
      s.is_emergency_stop = t.is_emergency_stop ∧
      s.is_circle_turn_end = t.is_circle_turn_end ∧
      s.is_no_head_mode = t.is_no_head_mode ∧
      (s.is_fast_return || s.is_unlock) = (t.is_fast_return || t.is_unlock) ∧
      s.is_gyro_correction = t.is_gyro_correction) ∧
    ((build_flight_command s DroneTypeStandard).2 =
        (build_flight_command t DroneTypeStandard).2 →
      s.control_byte1 = t.control_byte1 ∧
      s.control_byte2 = t.control_byte2 ∧
      s.control_turn = t.control_turn ∧
      (if s.control_accelerator = 1 then 0 else s.control_accelerator) =
        (if t.control_accelerator = 1 then 0 else t.control_accelerator) ∧
      byte5Std s = byte5Std t ∧
      byte6Std s = byte6Std t ∧
      (s.is_fast_fly || s.is_fast_drop) = (t.is_fast_fly || t.is_fast_drop) ∧
      s.is_emergency_stop = t.is_emergency_stop ∧
      s.is_gyro_correction = t.is_gyro_correction ∧
      s.is_circle_turn_end = t.is_circle_turn_end ∧
      s.is_no_head_mode = t.is_no_head_mode) := by
  obtain ⟨hs1, hs1', hs2, hs2', hs3, hs3', hs4⟩ := hs
  obtain ⟨ht1, ht1', ht2, ht2', ht3, ht3', ht4⟩ := ht
  have es1 : max 1 (min 255 s.control_byte1) = s.control_byte1 := by omega
  have es2 : max 1 (min 255 s.control_byte2) = s.control_byte2 := by omega
  have es3 : max 1 (min 255 s.control_turn) = s.control_turn := by omega
  have et1 : max 1 (min 255 t.control_byte1) = t.control_byte1 := by omega
  have et2 : max 1 (min 255 t.control_byte2) = t.control_byte2 := by omega
  have et3 : max 1 (min 255 t.control_turn) = t.control_turn := by omega
  have hsa : (if s.control_accelerator = 1 then 0 else s.control_accelerator) <
      256 := by split <;> omega
  have hta : (if t.control_accelerator = 1 then 0 else t.control_accelerator) <
      256 := by split <;> omega
  have hs5 := byte5OfState_lt s
  have ht5 := byte5OfState_lt t
  have hsb5 := (byte5Std_lt s).1
  have htb5 := (byte5Std_lt t).1
  have hsb6 := (byte5Std_lt s).2
  have htb6 := (byte5Std_lt t).2
  constructor
  · intro h
    rw [build_adv_eq, build_adv_eq, es1, es2, es3, et1, et2, et3] at h
    simp only [List.cons.injEq, and_true] at h
    obtain ⟨-, -, h1, h2, h4, h3, h5, -⟩ := h
    rw [Nat.mod_eq_of_lt (by omega), Nat.mod_eq_of_lt (by omega)] at h1
    rw [Nat.mod_eq_of_lt (by omega), Nat.mod_eq_of_lt (by omega)] at h2
    rw [Nat.mod_eq_of_lt (by omega), Nat.mod_eq_of_lt (by omega)] at h3
    rw [Nat.mod_eq_of_lt hsa, Nat.mod_eq_of_lt hta] at h4
    rw [Nat.mod_eq_of_lt hs5, Nat.mod_eq_of_lt ht5] at h5
    refine ⟨h1, h2, h3, h4, h5, ?_, ?_, ?_, ?_, ?_, ?_, ?_⟩
    · have hb := congrArg (fun x => x.testBit 0) h5
      simpa [(byte5OfState_testBit s).1, (byte5OfState_testBit t).1] using hb
    · have hb := congrArg (fun x => x.testBit 1) h5
      simpa [(byte5OfState_testBit s).2.1, (byte5OfState_testBit t).2.1] using hb
    · have hb := congrArg (fun x => x.testBit 2) h5
      simpa [(byte5OfState_testBit s).2.2.1, (byte5OfState_testBit t).2.2.1]
        using hb
    · have hb := congrArg (fun x => x.testBit 3) h5
      simpa [(byte5OfState_testBit s).2.2.2.1, (byte5OfState_testBit t).2.2.2.1]
        using hb
    · have hb := congrArg (fun x => x.testBit 4) h5
      simpa [(byte5OfState_testBit s).2.2.2.2.1,
        (byte5OfState_testBit t).2.2.2.2.1] using hb
    · have hb := congrArg (fun x => x.testBit 5) h5
      simpa [(byte5OfState_testBit s).2.2.2.2.2.1,
        (byte5OfState_testBit t).2.2.2.2.2.1] using hb
    · have hb := congrArg (fun x => x.testBit 7) h5
      simpa [(byte5OfState_testBit s).2.2.2.2.2.2.2,
        (byte5OfState_testBit t).2.2.2.2.2.2.2] using hb
  · intro h
    rw [build_std_eq, build_std_eq, es1, es2, es3, et1, et2, et3] at h
    simp only [List.cons.injEq, and_true] at h
    obtain ⟨-, -, -, h1, h2, h4, h3, h5, h6, -⟩ := h
    rw [Nat.mod_eq_of_lt (by omega), Nat.mod_eq_of_lt (by omega)] at h1
    rw [Nat.mod_eq_of_lt (by omega), Nat.mod_eq_of_lt (by omega)] at h2
    rw [Nat.mod_eq_of_lt (by omega), Nat.mod_eq_of_lt (by omega)] at h3
    rw [Nat.mod_eq_of_lt hsa, Nat.mod_eq_of_lt hta] at h4
    rw [Nat.mod_eq_of_lt hsb5, Nat.mod_eq_of_lt htb5] at h5
    rw [Nat.mod_eq_of_lt hsb6, Nat.mod_eq_of_lt htb6] at h6
    refine ⟨h1, h2, h3, h4, h5, h6, ?_, ?_, ?_, ?_, ?_⟩
    · have hb := congrArg (fun x => x.testBit 0) h5
      simpa [(byte5Std_testBit s).1, (byte5Std_testBit t).1] using hb
    · have hb := congrArg (fun x => x.testBit 1) h5
      simpa [(byte5Std_testBit s).2.1, (byte5Std_testBit t).2.1] using hb
    · have hb := congrArg (fun x => x.testBit 2) h5
      simpa [(byte5Std_testBit s).2.2.1, (byte5Std_testBit t).2.2.1] using hb
    · have hb := congrArg (fun x => x.testBit 3) h5
      simpa [(byte5Std_testBit s).2.2.2, (byte5Std_testBit t).2.2.2] using hb
    · exact indicator_inj _ _ h6

/-- **C4 witness**: the amended theorem applied to two concrete in-range
states with equal Advanced packets, recovering the equal flag bytes. -/
theorem encoder_injective_on_wire_fields_witness :
    byte5OfState
      ⟨128, 128, 128, 128, false, false, false, false, false, true, false, false⟩ =
    byte5OfState
      ⟨128, 128, 128, 128, false, false, false, false, false, false, true, false⟩ := by
  have h := encoder_injective_on_wire_fields
    ⟨128, 128, 128, 128, false, false, false, false, false, true, false, false⟩
    ⟨128, 128, 128, 128, false, false, false, false, false, false, true, false⟩
    (by decide) (by decide)
  exact (h.1 (by decide)).2.2.2.2.1

/-- **C4 counterexample**: two states with axes in [1,255] that differ in
their mode flags (one sets fastReturn, the other sets unlock) yield
byte-identical Advanced and Standard packets, so the encoder is not
injective on (axes, flags) inputs and no decoder can recover the exact flag
values. -/
theorem encoder_not_injective_on_flags :
    (build_flight_command
      ⟨128, 128, 128, 128, false, false, false, false, false, true, false, false⟩
      DroneTypeAdvanced).2 =
    (build_flight_command
      ⟨128, 128, 128, 128, false, false, false, false, false, false, true, false⟩
      DroneTypeAdvanced).2 ∧
    (build_flight_command
      ⟨128, 128, 128, 128, false, false, false, false, false, true, false, false⟩
      DroneTypeStandard).2 =
    (build_flight_command
      ⟨128, 128, 128, 128, false, false, false, false, false, false, true, false⟩
      DroneTypeStandard).2 ∧
    (⟨128, 128, 128, 128, false, false, false, false, false, true, false, false⟩ :
      DroneState) ≠
    ⟨128, 128, 128, 128, false, false, false, false, false, false, true, false⟩ ∧
    axesOK
      ⟨128, 128, 128, 128, false, false, false, false, false, true, false, false⟩ ∧
    axesOK
      ⟨128, 128, 128, 128, false, false, false, false, false, false, true, false⟩ := by
  decide

/-- The state returned by `build_flight_command` carries the same
`is_fast_fly` flag as its input (only axes are mutated). -/
lemma build_fst_is_fast_fly (s : DroneState) (d : Nat) :
    ((build_flight_command s d).1).is_fast_fly = s.is_fast_fly := by
  rcases s with ⟨acc, b1, b2, turn, f1, f2, f3, f4, f5, f6, f7, f8⟩
  by_cases h : d = DroneTypeAdvanced <;> by_cases h2 : acc = 1 <;>
    simp [build_flight_command, clampAxes, h, h2]

/-- Restatement of the flag preservation for `send_flight_command`. -/
lemma send_fst_is_fast_fly (s : DroneState) :
    ((send_flight_command s).1).is_fast_fly = s.is_fast_fly :=
  build_fst_is_fast_fly s DroneTypeAdvanced

/-- Byte 6 of a sent Advanced packet carries `is_fast_fly` in bit 0. -/
lemma send_packet_fastfly_bit (s : DroneState) :
    (((send_flight_command s).2).getD 6 0).testBit 0 = s.is_fast_fly := by
  unfold send_flight_command
  rw [build_adv_eq]
  simp only [List.getD_cons_succ, List.getD_cons_zero]
  rw [Nat.mod_eq_of_lt (byte5OfState_lt s)]
  exact (byte5OfState_testBit s).1

/-- The timed repeat-send loop of the burst actions (`Test_Commands.py`
lines 175-178): each iteration calls `send_flight_command` on the current
state; the wall-clock cutoff is abstracted into the iteration count `n`. -/
def repeat_send (s : DroneState) : Nat → DroneState × List (List Nat)
  | 0 => (s, [])
  | n + 1 =>
    let r := send_flight_command s
    let rest := repeat_send r.1 n
    (rest.1, r.2 :: rest.2)

/-- `DroneTester.takeoff_fast_fly` (`Test_Commands.py` lines 165-183):
set `is_fast_fly`, send once, repeat-send for the timed loop (`n`
iterations), clear `is_fast_fly`, send once more. Returns the final state
and the trace of sent packets. -/
def takeoff_fast_fly (s : DroneState) (n : Nat) :
    DroneState × List (List Nat) :=
  let s1 := { s with is_fast_fly := true }
  let r0 := send_flight_command s1
  let rl := repeat_send r0.1 n
  let s2 := { rl.1 with is_fast_fly := false }
  let rf := send_flight_command s2
  (rf.1, (r0.2 :: rl.2) ++ [rf.2])

/-- `DroneTester.hover` (`Test_Commands.py` lines 205-220): clears
`is_fast_fly`, `is_fast_drop`, `is_emergency_stop`, sets all four axes to
the neutral 128, and sends a single flight command. -/
def hover (s : DroneState) : DroneState × List (List Nat) :=
  let s1 := { s with
    is_fast_fly := false, is_fast_drop := false, is_emergency_stop := false,
    control_accelerator := 128, control_turn := 128,
    control_byte1 := 128, control_byte2 := 128 }
  let r := send_flight_command s1
  (r.1, [r.2])

/-- The repeat-send loop emits `n` packets, each carrying the starting
`is_fast_fly` flag, and preserves that flag. -/
lemma repeat_send_spec (s : DroneState) (n : Nat) :
    ((repeat_send s n).2).length = n ∧
    (∀ p ∈ (repeat_send s n).2, (p.getD 6 0).testBit 0 = s.is_fast_fly) ∧
    ((repeat_send s n).1).is_fast_fly = s.is_fast_fly := by
  induction n generalizing s with
  | zero => simp [repeat_send]
  | succ n ih =>
    obtain ⟨ihl, ihm, ihf⟩ := ih (send_flight_command s).1
    refine ⟨by simp [repeat_send, ihl], ?_, ?_⟩
    · intro p hp
      simp only [repeat_send, List.mem_cons] at hp
      rcases hp with h | h
      · rw [h]
        exact send_packet_fastfly_bit s
      · rw [ihm p h, send_fst_is_fast_fly]
    · show ((repeat_send (send_flight_command s).1 n).1).is_fast_fly = _
      rw [ihf, send_fst_is_fast_fly]

/-- **C5.** `takeoff_fast_fly` emits a finite trace of `n + 2` flight
packets in which every packet except the final one has the fastFly bit
(bit 0 of the flags byte) set; after the timed loop it clears `is_fast_fly`
and sends exactly one more packet, whose fastFly bit is clear; on return
the `is_fast_fly` flag is false. -/
theorem takeoff_fastfly_trace : ∀ (s : DroneState) (n : Nat),
    ((takeoff_fast_fly s n).2).length = n + 2 ∧
    (∀ p ∈ ((takeoff_fast_fly s n).2).dropLast,
      (p.getD 6 0).testBit 0 = true) ∧
    (∀ p, ((takeoff_fast_fly s n).2).getLast? = some p →
      (p.getD 6 0).testBit 0 = false) ∧
    ((takeoff_fast_fly s n).1).is_fast_fly = false := by
  intro s n
  obtain ⟨hl, hm, hf⟩ :=
    repeat_send_spec (send_flight_command { s with is_fast_fly := true }).1 n
  have hstart :
      ((send_flight_command { s with is_fast_fly := true }).1).is_fast_fly =
        true := by
    rw [send_fst_is_fast_fly]
  rw [hstart] at hm hf
  simp only [takeoff_fast_fly]
  refine ⟨?_, ?_, ?_, ?_⟩
  · simp [hl]
  · intro p hp
    rw [List.dropLast_concat] at hp
    rcases List.mem_cons.1 hp with h | h
    · rw [h]
      exact (send_packet_fastfly_bit _).trans (by simp)
    · exact hm p h
  · intro p hp
    rw [List.getLast?_concat] at hp
    obtain rfl : _ = p := Option.some.inj hp
    exact (send_packet_fastfly_bit _).trans (by simp)
  · rw [send_fst_is_fast_fly]

/-- The heartbeat scheduler state of `DroneTester`: the shared boolean
`running` flag and the number of live heartbeat loop activities. Every
spawned loop (`heartbeat_loop`, `Test_Commands.py` lines 57-60) keeps
sending while the shared `running` flag is true. -/
structure HeartbeatState where
  running : Bool
  threads : Nat
deriving DecidableEq, Repr

/-- `DroneTester.start_heartbeat` (`Test_Commands.py` lines 54-63): sets
`running = True` and spawns a fresh heartbeat loop thread. A previously
spawned loop keeps running — each loop watches the same shared flag and
`heartbeat_thread` merely stops pointing at it — so the count of live
periodic senders grows by one. -/
def start_heartbeat (h : HeartbeatState) : HeartbeatState :=
  ⟨true, h.threads + 1⟩

/-- `DroneTester.stop_heartbeat` (`Test_Commands.py` lines 65-70): clears
the shared `running` flag and joins; every live loop observes
`running = False` within one period and exits. -/
def stop_heartbeat (_ : HeartbeatState) : HeartbeatState :=
  ⟨false, 0⟩

/-- **C9** (corrected: `start_heartbeat` has no idempotence guard). Every
call to `start_heartbeat` spawns one additional concurrent heartbeat loop
— earlier loops keep running on the shared flag — and `stop_heartbeat`
quiesces them all; so calling start while running adds a sender instead of
being a no-op or rejected. -/
theorem start_heartbeat_spawns : ∀ h : HeartbeatState,
    (start_heartbeat h).running = true ∧
    (start_heartbeat h).threads = h.threads + 1 ∧
    (stop_heartbeat h).running = false ∧
    (stop_heartbeat h).threads = 0 := by
  intro h
  exact ⟨rfl, rfl, rfl, rfl⟩

/-- **C9 counterexample**: starting twice from the idle initial state
leaves two concurrent periodic heartbeat-sending activities, not at most
one. -/
theorem start_heartbeat_double_start :
    (start_heartbeat (start_heartbeat ⟨false, 0⟩)).threads = 2 ∧
    1 < (start_heartbeat (start_heartbeat ⟨false, 0⟩)).threads := by
  decide

/-- **C10.** `hover` sends exactly one packet, clears only `is_fast_fly`,
`is_fast_drop` and `is_emergency_stop`, resets all four axes to 128, and
leaves every other mode flag unchanged. -/
theorem hover_frame : ∀ s : DroneState,
    ((hover s).2).length = 1 ∧
    ((hover s).1).is_fast_fly = false ∧
    ((hover s).1).is_fast_drop = false ∧
    ((hover s).1).is_emergency_stop = false ∧
    ((hover s).1).control_accelerator = 128 ∧
    ((hover s).1).control_byte1 = 128 ∧
    ((hover s).1).control_byte2 = 128 ∧
    ((hover s).1).control_turn = 128 ∧
    ((hover s).1).is_gyro_correction = s.is_gyro_correction ∧
    ((hover s).1).is_no_head_mode = s.is_no_head_mode ∧
    ((hover s).1).is_fast_return = s.is_fast_return ∧
    ((hover s).1).is_unlock = s.is_unlock ∧
    ((hover s).1).is_circle_turn_end = s.is_circle_turn_end := by
  intro s
  rcases s with ⟨acc, b1, b2, turn, f1, f2, f3, f4, f5, f6, f7, f8⟩
  simp [hover, send_flight_command, build_flight_command, clampAxes]

/-- One attempted video-source open inside `CameraViewer.open_stream`. -/
inductive OpenAttempt
  | primaryFFMPEG
  | primaryDefault
  | webcam
deriving DecidableEq, Repr

/-- The active video source after a successful open. -/
inductive StreamSource
  | drone
  | localWebcam
deriving DecidableEq, Repr

/-- Environment of one `open_stream` call: whether each `cv2.VideoCapture`
attempt would open — the RTSP URL with the FFMPEG backend, the RTSP URL
with the default backend, and the local webcam at index 0. -/
structure OpenEnv where
  ffmpegOk : Bool
  defaultOk : Bool
  webcamOk : Bool
deriving DecidableEq, Repr

/-- `CameraViewer.open_stream` (`Hand_Landmark_Processing.py` lines 42-68):
try the drone RTSP URL with the FFMPEG backend; if that capture is not
opened, retry the same URL with the default backend; if the primary is
still not opened, fall back to the local webcam; raise `RuntimeError`
(modelled as `none`) when the webcam also fails. Returns the attempts made
in order and the resulting source (`is_drone` is true exactly on
`some .drone`). -/
def open_stream (e : OpenEnv) : List OpenAttempt × Option StreamSource :=
  if e.ffmpegOk then
    ([.primaryFFMPEG], some .drone)
  else if e.defaultOk then
    ([.primaryFFMPEG, .primaryDefault], some .drone)
  else if e.webcamOk then
    ([.primaryFFMPEG, .primaryDefault, .webcam], some .localWebcam)
  else
    ([.primaryFFMPEG, .primaryDefault, .webcam], none)

/-- **C6.** `open_stream` first attempts the primary RTSP source with the
FFMPEG backend, retries once with the default backend exactly when that
attempt fails to open, attempts the local webcam exactly when both primary
attempts fail, returns normally with the local webcam active when the
webcam opens, and raises the fatal no-video-source error exactly when all
three attempts fail. -/
theorem open_stream_fallback : ∀ e : OpenEnv,
    ((open_stream e).1).head? = some OpenAttempt.primaryFFMPEG ∧
    (OpenAttempt.primaryDefault ∈ (open_stream e).1 ↔ e.ffmpegOk = false) ∧
    (OpenAttempt.webcam ∈ (open_stream e).1 ↔
      (e.ffmpegOk = false ∧ e.defaultOk = false)) ∧
    ((open_stream e).2 = some StreamSource.drone ↔
      (e.ffmpegOk = true ∨ e.defaultOk = true)) ∧
    ((open_stream e).2 = some StreamSource.localWebcam ↔
      (e.ffmpegOk = false ∧ e.defaultOk = false ∧ e.webcamOk = true)) ∧
    ((open_stream e).2 = none ↔
      (e.ffmpegOk = false ∧ e.defaultOk = false ∧ e.webcamOk = false)) := by
  intro e
  rcases e with ⟨f, d, w⟩
  cases f <;> cases d <;> cases w <;> decide

/-- Environment of one iteration of the viewer's `run` loop: whether an
`open_stream` call made during this iteration would succeed, and whether
`cap.read()` returns a frame. -/
structure LoopEnv where
  openOk : Bool
  readOk : Bool
deriving DecidableEq, Repr

/-- Outcome of one iteration of the `run` loop: continue with the given
capture-open state and `reconnect_attempts` counter, or leave the loop. -/
inductive LoopStep
  | cont (capOpen : Bool) (attempts : Nat)
  | exit
deriving DecidableEq, Repr

/-- The read phase of `CameraViewer.run` (`Hand_Landmark_Processing.py`
lines 148-164), entered with the capture open and counter `a`: a
successful read resets the counter to 0; a failed read increments it, and
once the incremented counter reaches 8 a reopen is forced, which resets
the counter on success and leaves the capture closed on failure. -/
def read_phase (a : Nat) (env : LoopEnv) : LoopStep :=
  if env.readOk then .cont true 0
  else if 8 ≤ a + 1 then
    if env.openOk then .cont true 0
    else .cont false (a + 1)
  else .cont true (a + 1)

/-- One iteration of `CameraViewer.run` (`Hand_Landmark_Processing.py`
lines 134-164; `DroneViewer.run` in `Test_Cameras.py` lines 91-124 has the
identical loop structure): with the capture closed, the counter is
incremented and checked against `MAX_RECONNECTS = 5` — exceeding it breaks
out of the loop — then a reconnect is attempted, falling through to the
read phase on success; with the capture open, the read phase runs
directly. -/
def loop_step (capOpen : Bool) (a : Nat) (env : LoopEnv) : LoopStep :=
  if capOpen then read_phase a env
  else if 5 < a + 1 then .exit
  else if env.openOk then read_phase (a + 1) env
  else .cont false (a + 1)

/-- Iterating `loop_step` over a list of per-iteration environments. -/
def run_loop (capOpen : Bool) (a : Nat) : List LoopEnv → LoopStep
  | [] => .cont capOpen a
  | e :: es =>
    match loop_step capOpen a e with
    | .exit => .exit
    | .cont c b => run_loop c b es

/-- Under persistently failing opens, a closed capture exits the loop
within six iterations: the counter climbs until it exceeds 5. -/
lemma run_loop_allfail_exit : ∀ (k a : Nat), 5 ≤ a + k →
    run_loop false a (List.replicate (k + 1) ⟨false, false⟩) = .exit := by
  intro k
  induction k with
  | zero =>
    intro a h
    simp [run_loop, loop_step, show 5 < a + 1 by omega]
  | succ k ih =>
    intro a h
    by_cases h5 : 5 < a + 1
    · simp [run_loop, loop_step, h5]
    · have hnext := ih (a + 1) (by omega)
      simp only [List.replicate_succ, run_loop, loop_step, h5, if_false,
        if_neg h5]
      simpa using hnext

/-- **C7** (corrected: the shared counter is also reset by a successful
reopen in the failed-read branch, and the exceeds-5 exit check runs only in
the closed-capture reconnect branch). In the `run` loop: a reconnect
attempted with the counter already at 5 or more exits the loop (the
exhausted condition); a failed reconnect increments the single counter and
continues; whenever an iteration continues with the counter reset to 0,
either the frame read succeeded or a forced reopen (after 8 or more
consecutive failures) succeeded; and with every open failing, a closed
capture exits the loop within six iterations instead of retrying
forever. -/
theorem reconnect_counter_spec :
    (∀ (a : Nat) (env : LoopEnv), 5 ≤ a → loop_step false a env = .exit) ∧
    (∀ (a : Nat) (env : LoopEnv), a < 5 → env.openOk = false →
      loop_step false a env = .cont false (a + 1)) ∧
    (∀ (c : Bool) (a : Nat) (env : LoopEnv) (c2 : Bool),
      loop_step c a env = .cont c2 0 →
      env.readOk = true ∨ (env.openOk = true ∧ 8 ≤ a + 1)) ∧
    (∀ a : Nat, run_loop false a (List.replicate 6 ⟨false, false⟩) = .exit) := by
  refine ⟨?_, ?_, ?_, ?_⟩
  · intro a env h
    simp [loop_step, show 5 < a + 1 by omega]
  · intro a env h henv
    simp [loop_step, show ¬5 < a + 1 by omega, henv]
  · intro c a env c2 h
    rcases env with ⟨o, r⟩
    by_cases hr : r = true
    · exact Or.inl hr
    · replace hr : r = false := by simpa using hr
      subst hr
      right
      have hread : ∀ b : Nat, read_phase b ⟨o, false⟩ = .cont c2 0 →
          o = true ∧ 8 ≤ b + 1 := by
        intro b hb
        by_cases h8 : 8 ≤ b + 1
        · cases o
          · simp [read_phase, h8] at hb
          · exact ⟨rfl, h8⟩
        · simp [read_phase, h8] at hb
      cases c
      · by_cases h5 : 5 < a + 1
        · simp [loop_step, h5] at h
        · cases o
          · simp [loop_step, h5] at h
          · have h2 := hread (a + 1) (by simpa [loop_step, h5] using h)
            exact absurd h2.2 (by omega)
      · exact hread a (by simpa [loop_step] using h)
  · intro a
    have h := run_loop_allfail_exit 5 a (by omega)
    simpa using h

/-- **C7 counterexample**: starting with the capture open and the counter
at 0, eight consecutive failed reads followed by a successful forced
reopen drive the counter up to 7 and then reset it to 0, although no
frame read succeeded at any point — so the counter is not reset "only
after a successful frame read". -/
theorem reconnect_counter_reset_without_read :
    run_loop true 0 (List.replicate 7 ⟨true, false⟩) = .cont true 7 ∧
    run_loop true 0 (List.replicate 8 ⟨true, false⟩) = .cont true 0 ∧
    (∀ e ∈ List.replicate 8 (⟨true, false⟩ : LoopEnv), e.readOk = false) := by
  decide

/-- Result of a `switch_camera` call: the UDP packets sent, the
`reopen_delay` argument (milliseconds) of each `open_stream` call made,
the extra sleeps (milliseconds) between attempts, the stored camera index
afterwards, and the source opened by the successful attempt, if any. -/
structure SwitchResult where
  sent : List (List Nat)
  openDelays : List Nat
  sleeps : List Nat
  current_cam : Nat
  source : Option StreamSource
deriving DecidableEq, Repr

/-- `CameraViewer.switch_camera` (`Hand_Landmark_Processing.py` lines
70-93; `DroneViewer.switch_camera` in `Test_Cameras.py` lines 61-84 is
identical except that it lacks the drone-only guard): when not on the
drone feed the call is rejected; otherwise the toggled camera-select
packet {6, new_cam} is sent, the stream is reopened with
`reopen_delay=0.7` (700 ms), a single retry follows after a 0.5 s sleep
when the first reopen raises, and `self.current_cam = new_cam` runs at the
end of the call regardless of the reopen outcomes. `e1`, `e2` are the
environments of the two possible `open_stream` calls. -/
def switch_camera (is_drone : Bool) (current_cam : Nat) (e1 e2 : OpenEnv) :
    SwitchResult :=
  if !is_drone then
    ⟨[], [], [], current_cam, none⟩
  else
    let new_cam := if current_cam = 1 then 2 else 1
    let pkt := [6, new_cam]
    match (open_stream e1).2 with
    | some src => ⟨[pkt], [700], [], new_cam, some src⟩
    | none =>
      match (open_stream e2).2 with
      | some src => ⟨[pkt], [700, 700], [500], new_cam, some src⟩
      | none => ⟨[pkt], [700, 700], [500], new_cam, none⟩

/-- **C8** (corrected: the stored camera index is updated to the new
camera even when both reopen attempts fail). While streaming from the
drone, `switch_camera` sends exactly the matching camera-select packet
({6,1} for camera 1, {6,2} for camera 2), reopens the stream with a 0.7 s
settle delay, retries the reopen once more after an additional 0.5 s delay
exactly when the first reopen raises, and always stores the toggled camera
index — while off the drone feed the call sends nothing and changes
nothing. -/
theorem switch_camera_spec : ∀ (cam : Nat) (e1 e2 : OpenEnv),
    (switch_camera true cam e1 e2).sent =
      [[6, if cam = 1 then 2 else 1]] ∧
    (switch_camera true cam e1 e2).openDelays =
      (if (open_stream e1).2.isSome then [700] else [700, 700]) ∧
    (switch_camera true cam e1 e2).sleeps =
      (if (open_stream e1).2.isSome then [] else [500]) ∧
    (switch_camera true cam e1 e2).current_cam =
      (if cam = 1 then 2 else 1) ∧
    (switch_camera false cam e1 e2).sent = [] ∧
    (switch_camera false cam e1 e2).current_cam = cam := by
  intro cam e1 e2
  rcases e1 with ⟨f1, d1, w1⟩
  rcases e2 with ⟨f2, d2, w2⟩
  cases f1 <;> cases d1 <;> cases w1 <;> cases f2 <;> cases d2 <;>
    cases w2 <;> simp [switch_camera, open_stream]

/-- **C8 counterexample**: switching from camera 1 with every open attempt
failing makes both reopen calls raise, yet the stored camera index ends at
2, not the unchanged 1 the claim requires. -/
theorem switch_camera_updates_cam_on_failure :
    (switch_camera true 1 ⟨false, false, false⟩
      ⟨false, false, false⟩).current_cam = 2 ∧
    (open_stream ⟨false, false, false⟩).2 = none ∧
    (switch_camera true 1 ⟨false, false, false⟩
      ⟨false, false, false⟩).openDelays = [700, 700] := by
  decide

end Chloroplast
